import Mathlib

/-!
Shallow embedding of the subscription-forwarding endpoint of the
ferguson-livestock repository.  The one source file of interest holds two
versions of the POST handler for the signup route; the first (older) one is
embedded below as `subscribeA`, the second as `subscribeB`.  Outbound HTTP
calls are represented by descriptors collected in a trace, and the remote
marketing platform's responses are supplied by oracle structures.
-/

/-- Characters kept by the second replace call of the phone scrub:
decimal digits and the plus sign. -/
def keepPhoneChar (c : Char) : Bool := c.isDigit || c == '+'

/-- Result of the two chained replace calls on the phone field:
whitespace removed first, then every character other than a decimal digit
or a plus removed. -/
def stripPhone (phone : String) : List Char :=
  (phone.data.filter (fun c => !c.isWhitespace)).filter keepPhoneChar

/-- E.164-style formatting of the phone field, as in both handler versions:
after scrubbing, a leading zero is replaced by the country code +61, a
number with no leading plus gets +61 prepended, and a number already
carrying a leading plus passes through. -/
def formattedPhone (phone : String) : String :=
  let f := stripPhone phone
  if f.head? = some '0' then ⟨'+' :: '6' :: '1' :: f.tail⟩
  else if f.head? ≠ some '+' then ⟨'+' :: '6' :: '1' :: f⟩
  else ⟨f⟩

/-- C2: normalization first strips whitespace and every character other than
decimal digits and plus; a stripped value with a leading zero has the zero
replaced by +61, one with no leading plus is prefixed with +61, and one
already starting with plus passes through unchanged; the three spec
examples evaluate as stated. -/
theorem formattedPhone_normalization (phone : String) :
    (∀ c : Char, c ∈ stripPhone phone ↔
        c ∈ phone.data ∧ c.isWhitespace = false ∧ (c.isDigit = true ∨ c = '+')) ∧
    (∀ rest, stripPhone phone = '0' :: rest →
        (formattedPhone phone).data = '+' :: '6' :: '1' :: rest) ∧
    ((stripPhone phone).head? = some '+' →
        (formattedPhone phone).data = stripPhone phone) ∧
    ((stripPhone phone).head? ≠ some '0' → (stripPhone phone).head? ≠ some '+' →
        (formattedPhone phone).data = '+' :: '6' :: '1' :: stripPhone phone) ∧
    formattedPhone "0412 345 678" = "+61412345678" ∧
    formattedPhone "+61412345678" = "+61412345678" ∧
    formattedPhone "412345678" = "+61412345678" := by
  refine ⟨?_, ?_, ?_, ?_, by decide, by decide, by decide⟩
  · intro c
    simp only [stripPhone, List.mem_filter, keepPhoneChar, Bool.or_eq_true, beq_iff_eq,
      Bool.not_eq_true', and_assoc]
  · intro rest h
    simp [formattedPhone, h]
  · intro h
    have h0 : (stripPhone phone).head? ≠ some '0' := by
      rw [h]; intro hc; exact absurd (Option.some.inj hc) (by decide)
    simp [formattedPhone, h0, h]
  · intro h0 hp
    simp [formattedPhone, h0, hp]

/-- Witness for the C2 theorem at a concrete phone value. -/
theorem formattedPhone_normalization_witness :
    stripPhone "0412 345 678" = '0' :: "412345678".data ∧
    (formattedPhone "0412 345 678").data = '+' :: '6' :: '1' :: "412345678".data :=
  ⟨by decide, (formattedPhone_normalization "0412 345 678").2.1 "412345678".data (by decide)⟩

/-- C9: the normalized phone always begins with a plus character; an input
that strips to the empty character list yields exactly +61. -/
theorem formattedPhone_starts_with_plus (phone : String) :
    (formattedPhone phone).data.head? = some '+' ∧
    (stripPhone phone = [] → formattedPhone phone = "+61") := by
  constructor
  · simp only [formattedPhone]
    split
    · rfl
    · split
      · rfl
      · next h1 h2 =>
        have : (stripPhone phone).head? = some '+' := by
          by_contra hc; exact h2 hc
        simp [this]
  · intro h
    have h0 : (stripPhone phone).head? ≠ some '0' := by simp [h]
    have hp : (stripPhone phone).head? ≠ some '+' := by simp [h]
    simp only [formattedPhone, h, h0, hp]
    decide

/-- Witness for the C9 theorem at a concrete input whose stripped form is empty. -/
theorem formattedPhone_starts_with_plus_witness :
    stripPhone "  -  " = [] ∧ formattedPhone "  -  " = "+61" :=
  ⟨by decide, (formattedPhone_starts_with_plus "  -  ").2 (by decide)⟩

/-- Request body fields; a `none` models an absent JSON field. -/
structure SubscribeRequest where
  firstName : Option String
  phone : Option String
  postcode : Option String
deriving DecidableEq

/-- Truthiness test applied by the handlers to an optional string field:
an absent field and the empty string are falsy. -/
def falsyStr : Option String → Bool
  | none => true
  | some s => s.isEmpty

/-- The required-fields guard shared by both handler versions. -/
def missingRequiredFields (d : SubscribeRequest) : Bool :=
  falsyStr d.firstName || falsyStr d.phone || falsyStr d.postcode

/-- The anchored four-decimal-digit pattern test applied to the postcode. -/
def postcodeMatches (p : String) : Bool :=
  p.data.length == 4 && p.data.all Char.isDigit

/-- Environment variables read by the handlers; `none` models an unset one. -/
structure Env where
  KLAVIYO_PUBLIC_API_KEY : Option String
  KLAVIYO_API_KEY : Option String
  KLAVIYO_LIST_ID : Option String
deriving DecidableEq

/-- Body of the JSON reply sent to the caller: a success message or an
error string. -/
inductive RespBody where
  | ok (message : String)
  | err (error : String)
deriving DecidableEq

/-- HTTP reply of the handler. -/
structure Reply where
  status : Nat
  body : RespBody
deriving DecidableEq

/-- Descriptors of the outbound HTTP calls the handlers can issue, carrying
the data that identifies each call. -/
inductive OutboundCall where
  | clientSubscribe (listId phoneNumber firstName postcode signupDate : String)
  | profileSearch (phoneNumber : String)
  | createProfile (phoneNumber firstName postcode signupDate : String)
  | updateProfile (profileId firstName postcode : String)
  | addToList (listId profileId : String)
deriving DecidableEq

/-- Result of parsing the inbound request body; a parse failure carries the
message of the thrown syntax error. -/
inductive BodyParse where
  | ok (d : SubscribeRequest)
  | fail (msg : String)
deriving DecidableEq

/-- The remote platform's answer to the create-profile call of the second
handler version: the HTTP status, the identifier carried by a parsed
created-body, and the optional duplicate identifier carried in the error
metadata of a conflict body. -/
structure CreateProfileResp where
  status : Nat
  newId : String
  duplicateId : Option String
deriving DecidableEq

/-- Oracle for the outbound calls of the second handler version.  The
update and list statuses are recorded but never inspected by the handler. -/
structure KlaviyoB where
  createResp : CreateProfileResp
  updateStatus : Nat
  listStatus : Nat
deriving DecidableEq

/-- Oracle for the outbound calls of the first handler version.  For the
profile search, `none` models a response body whose JSON parse throws,
`some none` an empty result list, and `some (some id)` a first match; for
the create call, `none` models a created-body whose JSON parse throws. -/
structure KlaviyoA where
  subscribeStatus : Nat
  searchOk : Bool
  searchFound : Option (Option String)
  updateStatus : Nat
  createOk : Bool
  createStatus : Nat
  createNewId : Option String
  listStatus : Nat
deriving DecidableEq

/-- Generic message of the catch-all branch of the second handler version. -/
def genericCatchMsg : String := "An error occurred. Please try again."

/-- Body of the second handler version, inside its try block: either a
reply, or the message of a thrown failure, together with the trace of
outbound calls issued.  A body-parse failure re-raises inside the try; a
non-created non-conflict create status throws, and so does a conflict body
whose duplicate identifier fails the truthiness test of the source (absent
or the empty string).  The 201 body is assumed well formed (its identifier
is read without a dedicated failure branch in the source). -/
def subscribeBRun (req : BodyParse) (env : Env) (k : KlaviyoB) (now : String) :
    Except String Reply × List OutboundCall :=
  match req with
  | .fail msg => (.error msg, [])
  | .ok d =>
    if missingRequiredFields d then
      (.ok ⟨400, .err "Missing required fields"⟩, [])
    else if !postcodeMatches (d.postcode.getD "") then
      (.ok ⟨400, .err "Invalid postcode format"⟩, [])
    else
      let fp := formattedPhone (d.phone.getD "")
      if falsyStr env.KLAVIYO_API_KEY || falsyStr env.KLAVIYO_LIST_ID then
        (.ok ⟨500, .err "Server configuration error"⟩, [])
      else
        let listId := env.KLAVIYO_LIST_ID.getD ""
        let firstName := d.firstName.getD ""
        let postcode := d.postcode.getD ""
        let createCall := OutboundCall.createProfile fp firstName postcode now
        if k.createResp.status = 201 then
          (.ok ⟨200, .ok "Successfully subscribed to the wait list!"⟩,
            [createCall, .addToList listId k.createResp.newId])
        else if k.createResp.status = 409 then
          let existingId := k.createResp.duplicateId
          if !falsyStr existingId then
            let profileId := existingId.getD ""
            (.ok ⟨200, .ok "Successfully subscribed to the wait list!"⟩,
              [createCall, .updateProfile profileId firstName postcode,
               .addToList listId profileId])
          else
            (.error "Could not get existing profile ID", [createCall])
        else
          (.error "Failed to create profile", [createCall])

/-- The catch block of the second handler version: any thrown failure is
mapped to a 500 reply with a fixed generic message, the detail being
logged server-side only. -/
def catchB : Except String Reply → Reply
  | .ok r => r
  | .error _ => ⟨500, .err genericCatchMsg⟩

/-- The second handler version: its try body with its catch block. -/
def subscribeB (req : BodyParse) (env : Env) (k : KlaviyoB) (now : String) :
    Reply × List OutboundCall :=
  let p := subscribeBRun req env k now
  (catchB p.1, p.2)

/-- Body of the first handler version, inside its try block.  The client
subscription status is never inspected; the verification block runs only
when the private key is truthy, and its inner catch swallows parse
failures, so the only failure that reaches the outer catch in this model
is a body-parse failure. -/
def subscribeARun (req : BodyParse) (env : Env) (k : KlaviyoA) (now : String) :
    Except String Reply × List OutboundCall :=
  match req with
  | .fail msg => (.error msg, [])
  | .ok d =>
    if missingRequiredFields d then
      (.ok ⟨400, .err "Missing required fields"⟩, [])
    else if !postcodeMatches (d.postcode.getD "") then
      (.ok ⟨400, .err "Invalid postcode format"⟩, [])
    else
      let fp := formattedPhone (d.phone.getD "")
      if falsyStr env.KLAVIYO_PUBLIC_API_KEY || falsyStr env.KLAVIYO_LIST_ID then
        (.ok ⟨500, .err "Server configuration error"⟩, [])
      else
        let listId := env.KLAVIYO_LIST_ID.getD ""
        let firstName := d.firstName.getD ""
        let postcode := d.postcode.getD ""
        let verifyCalls : List OutboundCall :=
          if falsyStr env.KLAVIYO_API_KEY then []
          else
            OutboundCall.profileSearch fp ::
            (if k.searchOk then
              match k.searchFound with
              | none => []
              | some (some profileId) =>
                  [.updateProfile profileId firstName postcode,
                   .addToList listId profileId]
              | some none =>
                  OutboundCall.createProfile fp firstName postcode now ::
                  (if k.createOk || k.createStatus = 201 then
                    match k.createNewId with
                    | some newProfileId => [.addToList listId newProfileId]
                    | none => []
                  else [])
            else [])
        (.ok ⟨200, .ok "Successfully subscribed to the wait list!"⟩,
          OutboundCall.clientSubscribe listId fp firstName postcode now :: verifyCalls)

/-- The catch block of the first handler version: it exposes the thrown
failure's own message in the reply body (falling back to a generic string
only for a non-Error throw, which this model cannot produce). -/
def catchA : Except String Reply → Reply
  | .ok r => r
  | .error msg => ⟨500, .err msg⟩

/-- The first handler version: its try body with its catch block. -/
def subscribeA (req : BodyParse) (env : Env) (k : KlaviyoA) (now : String) :
    Reply × List OutboundCall :=
  let p := subscribeARun req env k now
  (catchA p.1, p.2)

/-- Marker for the create-profile call among the outbound descriptors. -/
def isCreateCall : OutboundCall → Bool
  | .createProfile _ _ _ _ => true
  | .clientSubscribe _ _ _ _ _ => false
  | .profileSearch _ => false
  | .updateProfile _ _ _ => false
  | .addToList _ _ => false

/-- Number of create-profile (upsert) attempts in an outbound trace. -/
def upsertAttempts (t : List OutboundCall) : Nat :=
  (t.filter isCreateCall).length

/-- C6: a submission with any of the three fields absent or empty is
answered 400 with the missing-fields error body by both handler versions,
with no outbound call issued. -/
theorem missing_fields_returns_400 (d : SubscribeRequest) (env : Env)
    (kA : KlaviyoA) (kB : KlaviyoB) (now : String)
    (h : d.firstName = none ∨ d.firstName = some "" ∨ d.phone = none ∨
      d.phone = some "" ∨ d.postcode = none ∨ d.postcode = some "") :
    subscribeA (.ok d) env kA now = (⟨400, .err "Missing required fields"⟩, []) ∧
    subscribeB (.ok d) env kB now = (⟨400, .err "Missing required fields"⟩, []) := by
  have hm : missingRequiredFields d = true := by
    rcases h with h | h | h | h | h | h <;>
      simp [missingRequiredFields, falsyStr, h, String.isEmpty]
  constructor <;>
    simp [subscribeA, subscribeARun, subscribeB, subscribeBRun, catchA, catchB, hm]

/-- Witness for the C6 theorem at a concrete submission with an empty
phone field. -/
theorem missing_fields_returns_400_witness :
    (⟨some "Jane", some "", some "4000"⟩ : SubscribeRequest).phone = some "" ∧
    subscribeA (.ok ⟨some "Jane", some "", some "4000"⟩) ⟨some "pk", some "sk", some "L1"⟩
        ⟨202, true, some none, 200, true, 201, some "P1", 204⟩ "2025-01-01" =
      (⟨400, .err "Missing required fields"⟩, []) ∧
    subscribeB (.ok ⟨some "Jane", some "", some "4000"⟩) ⟨some "pk", some "sk", some "L1"⟩
        ⟨⟨201, "P1", none⟩, 200, 204⟩ "2025-01-01" =
      (⟨400, .err "Missing required fields"⟩, []) :=
  ⟨rfl,
   (missing_fields_returns_400 ⟨some "Jane", some "", some "4000"⟩
     ⟨some "pk", some "sk", some "L1"⟩
     ⟨202, true, some none, 200, true, 201, some "P1", 204⟩
     ⟨⟨201, "P1", none⟩, 200, 204⟩ "2025-01-01"
     (Or.inr (Or.inr (Or.inr (Or.inl rfl))))).1,
   (missing_fields_returns_400 ⟨some "Jane", some "", some "4000"⟩
     ⟨some "pk", some "sk", some "L1"⟩
     ⟨202, true, some none, 200, true, 201, some "P1", 204⟩
     ⟨⟨201, "P1", none⟩, 200, 204⟩ "2025-01-01"
     (Or.inr (Or.inr (Or.inr (Or.inl rfl))))).2⟩

/-- C7: a submission passing the required-fields guard whose postcode
fails the four-digit pattern is answered 400 with the invalid-postcode
error body by both handler versions with no outbound call; the pattern
holds exactly of the strings of four decimal digits, and the three spec
examples fail it. -/
theorem invalid_postcode_returns_400 (d : SubscribeRequest) (env : Env)
    (kA : KlaviyoA) (kB : KlaviyoB) (now : String)
    (h1 : missingRequiredFields d = false)
    (h2 : postcodeMatches (d.postcode.getD "") = false) :
    subscribeA (.ok d) env kA now = (⟨400, .err "Invalid postcode format"⟩, []) ∧
    subscribeB (.ok d) env kB now = (⟨400, .err "Invalid postcode format"⟩, []) ∧
    (∀ p : String, postcodeMatches p = true ↔
      (p.data.length = 4 ∧ ∀ c ∈ p.data, c.isDigit = true)) ∧
    postcodeMatches "ABCD" = false ∧ postcodeMatches "123" = false ∧
    postcodeMatches "12345" = false ∧ postcodeMatches "4000" = true := by
  refine ⟨?_, ?_, ?_, by decide, by decide, by decide, by decide⟩
  · simp [subscribeA, subscribeARun, catchA, h1, h2]
  · simp [subscribeB, subscribeBRun, catchB, h1, h2]
  · intro p
    simp [postcodeMatches, List.all_eq_true]

/-- Witness for the C7 theorem at a concrete submission with a
three-character postcode. -/
theorem invalid_postcode_returns_400_witness :
    missingRequiredFields ⟨some "Jane", some "0412", some "123"⟩ = false ∧
    postcodeMatches "123" = false ∧
    subscribeB (.ok ⟨some "Jane", some "0412", some "123"⟩) ⟨some "pk", some "sk", some "L1"⟩
        ⟨⟨201, "P1", none⟩, 200, 204⟩ "2025-01-01" =
      (⟨400, .err "Invalid postcode format"⟩, []) :=
  ⟨by decide, by decide,
   (invalid_postcode_returns_400 ⟨some "Jane", some "0412", some "123"⟩
     ⟨some "pk", some "sk", some "L1"⟩
     ⟨202, true, some none, 200, true, 201, some "P1", 204⟩
     ⟨⟨201, "P1", none⟩, 200, 204⟩ "2025-01-01" (by decide) (by decide)).2.1⟩

/-- C4: a valid submission hitting an absent or empty required
configuration secret is answered 500 with the generic configuration
message and no outbound call, by each handler version with respect to the
secrets it requires (private key and list identifier for the second
version, public key and list identifier for the first). -/
theorem missing_config_returns_500 (d : SubscribeRequest) (env : Env)
    (kA : KlaviyoA) (kB : KlaviyoB) (now : String)
    (h1 : missingRequiredFields d = false)
    (h2 : postcodeMatches (d.postcode.getD "") = true) :
    ((falsyStr env.KLAVIYO_API_KEY || falsyStr env.KLAVIYO_LIST_ID) = true →
        subscribeB (.ok d) env kB now = (⟨500, .err "Server configuration error"⟩, [])) ∧
    ((falsyStr env.KLAVIYO_PUBLIC_API_KEY || falsyStr env.KLAVIYO_LIST_ID) = true →
        subscribeA (.ok d) env kA now = (⟨500, .err "Server configuration error"⟩, [])) := by
  constructor <;> intro hc
  · simp [subscribeB, subscribeBRun, catchB, h1, h2, hc]
  · simp [subscribeA, subscribeARun, catchA, h1, h2, hc]

/-- Witness for the C4 theorem with the private key unset. -/
theorem missing_config_returns_500_witness :
    missingRequiredFields ⟨some "Jane", some "0412", some "4000"⟩ = false ∧
    postcodeMatches "4000" = true ∧
    (falsyStr ((⟨some "pk", none, some "L1"⟩ : Env).KLAVIYO_API_KEY) ||
      falsyStr ((⟨some "pk", none, some "L1"⟩ : Env).KLAVIYO_LIST_ID)) = true ∧
    subscribeB (.ok ⟨some "Jane", some "0412", some "4000"⟩) ⟨some "pk", none, some "L1"⟩
        ⟨⟨201, "P1", none⟩, 200, 204⟩ "2025-01-01" =
      (⟨500, .err "Server configuration error"⟩, []) :=
  ⟨by decide, by decide, by decide,
   (missing_config_returns_500 ⟨some "Jane", some "0412", some "4000"⟩
     ⟨some "pk", none, some "L1"⟩
     ⟨202, true, some none, 200, true, 201, some "P1", 204⟩
     ⟨⟨201, "P1", none⟩, 200, 204⟩ "2025-01-01" (by decide) (by decide)).1 (by decide)⟩

/-- C1: with a valid submission and full configuration, the second handler
version follows the exact three-branch upsert flow: a 201 creation uses
the identifier of the created body; a 409 conflict carrying a duplicate
identifier (one passing the truthiness test, so non-empty) triggers a
follow-up update call against it and the request still succeeds; a 409
whose duplicate identifier is absent or empty, or any other status, ends
in a 500 reply with only the create call issued. -/
theorem upsert_three_branch_flow (d : SubscribeRequest) (env : Env)
    (k : KlaviyoB) (now : String)
    (h1 : missingRequiredFields d = false)
    (h2 : postcodeMatches (d.postcode.getD "") = true)
    (h3 : falsyStr env.KLAVIYO_API_KEY = false)
    (h4 : falsyStr env.KLAVIYO_LIST_ID = false) :
    (k.createResp.status = 201 →
        subscribeB (.ok d) env k now =
          (⟨200, .ok "Successfully subscribed to the wait list!"⟩,
           [.createProfile (formattedPhone (d.phone.getD "")) (d.firstName.getD "")
              (d.postcode.getD "") now,
            .addToList (env.KLAVIYO_LIST_ID.getD "") k.createResp.newId])) ∧
    (∀ pid, k.createResp.status = 409 → k.createResp.duplicateId = some pid →
        pid ≠ "" →
        subscribeB (.ok d) env k now =
          (⟨200, .ok "Successfully subscribed to the wait list!"⟩,
           [.createProfile (formattedPhone (d.phone.getD "")) (d.firstName.getD "")
              (d.postcode.getD "") now,
            .updateProfile pid (d.firstName.getD "") (d.postcode.getD ""),
            .addToList (env.KLAVIYO_LIST_ID.getD "") pid])) ∧
    (k.createResp.status = 409 → falsyStr k.createResp.duplicateId = true →
        subscribeB (.ok d) env k now =
          (⟨500, .err genericCatchMsg⟩,
           [.createProfile (formattedPhone (d.phone.getD "")) (d.firstName.getD "")
              (d.postcode.getD "") now])) ∧
    (k.createResp.status ≠ 201 → k.createResp.status ≠ 409 →
        subscribeB (.ok d) env k now =
          (⟨500, .err genericCatchMsg⟩,
           [.createProfile (formattedPhone (d.phone.getD "")) (d.firstName.getD "")
              (d.postcode.getD "") now])) := by
  refine ⟨?_, ?_, ?_, ?_⟩
  · intro h5
    simp [subscribeB, subscribeBRun, catchB, h1, h2, h3, h4, h5]
  · intro pid h5 h6 h7
    have h8 : falsyStr (some pid) = false := by
      cases he : pid.isEmpty with
      | false => exact he
      | true => exact absurd ((String.isEmpty_iff pid).mp he) h7
    simp [subscribeB, subscribeBRun, catchB, h1, h2, h3, h4, h5, h6, h8]
  · intro h5 h6
    simp [subscribeB, subscribeBRun, catchB, h1, h2, h3, h4, h5, h6]
  · intro h5 h6
    simp [subscribeB, subscribeBRun, catchB, h1, h2, h3, h4, h5, h6]

/-- Witness for the C1 theorem on the conflict-with-identifier branch. -/
theorem upsert_three_branch_flow_witness :
    missingRequiredFields ⟨some "Jane", some "0412 345 678", some "4000"⟩ = false ∧
    postcodeMatches "4000" = true ∧
    falsyStr (some "sk") = false ∧
    falsyStr (some "L1") = false ∧
    subscribeB (.ok ⟨some "Jane", some "0412 345 678", some "4000"⟩)
        ⟨some "pk", some "sk", some "L1"⟩ ⟨⟨409, "", some "P2"⟩, 200, 204⟩ "2025-01-01" =
      (⟨200, .ok "Successfully subscribed to the wait list!"⟩,
       [.createProfile "+61412345678" "Jane" "4000" "2025-01-01",
        .updateProfile "P2" "Jane" "4000",
        .addToList "L1" "P2"]) :=
  ⟨by decide, by decide, by decide, by decide,
   (upsert_three_branch_flow ⟨some "Jane", some "0412 345 678", some "4000"⟩
     ⟨some "pk", some "sk", some "L1"⟩ ⟨⟨409, "", some "P2"⟩, 200, 204⟩ "2025-01-01"
     (by decide) (by decide) (by decide) (by decide)).2.1 "P2" rfl rfl (by decide)⟩

/-- C3: once a contact identifier is resolved by the second handler
version (created, or recovered from the conflict body and passing the
truthiness test), the list-membership add call is issued with that
identifier and the reply is 200 with the success body; the reply and trace
do not depend on the statuses of the update and list-membership calls,
which the handler never inspects. -/
theorem list_add_nonfatal (d : SubscribeRequest) (env : Env)
    (k : KlaviyoB) (now : String)
    (h1 : missingRequiredFields d = false)
    (h2 : postcodeMatches (d.postcode.getD "") = true)
    (h3 : falsyStr env.KLAVIYO_API_KEY = false)
    (h4 : falsyStr env.KLAVIYO_LIST_ID = false) :
    (k.createResp.status = 201 →
        (subscribeB (.ok d) env k now).1 =
          ⟨200, .ok "Successfully subscribed to the wait list!"⟩ ∧
        OutboundCall.addToList (env.KLAVIYO_LIST_ID.getD "") k.createResp.newId ∈
          (subscribeB (.ok d) env k now).2) ∧
    (∀ pid, k.createResp.status = 409 → k.createResp.duplicateId = some pid →
        pid ≠ "" →
        (subscribeB (.ok d) env k now).1 =
          ⟨200, .ok "Successfully subscribed to the wait list!"⟩ ∧
        OutboundCall.addToList (env.KLAVIYO_LIST_ID.getD "") pid ∈
          (subscribeB (.ok d) env k now).2) ∧
    (∀ k' : KlaviyoB, k'.createResp = k.createResp →
        subscribeB (.ok d) env k' now = subscribeB (.ok d) env k now) := by
  refine ⟨?_, ?_, ?_⟩
  · intro h5
    simp [subscribeB, subscribeBRun, catchB, h1, h2, h3, h4, h5]
  · intro pid h5 h6 h7
    have h8 : falsyStr (some pid) = false := by
      cases he : pid.isEmpty with
      | false => exact he
      | true => exact absurd ((String.isEmpty_iff pid).mp he) h7
    simp [subscribeB, subscribeBRun, catchB, h1, h2, h3, h4, h5, h6, h8]
  · intro k' hk
    simp only [subscribeB, subscribeBRun, hk]

/-- Witness for the C3 theorem on the creation branch, with a failing
list-membership status. -/
theorem list_add_nonfatal_witness :
    missingRequiredFields ⟨some "Jane", some "0412 345 678", some "4000"⟩ = false ∧
    postcodeMatches "4000" = true ∧
    falsyStr (some "sk") = false ∧
    falsyStr (some "L1") = false ∧
    ((subscribeB (.ok ⟨some "Jane", some "0412 345 678", some "4000"⟩)
        ⟨some "pk", some "sk", some "L1"⟩ ⟨⟨201, "P1", none⟩, 200, 500⟩ "2025-01-01").1 =
      ⟨200, .ok "Successfully subscribed to the wait list!"⟩ ∧
     OutboundCall.addToList "L1" "P1" ∈
      (subscribeB (.ok ⟨some "Jane", some "0412 345 678", some "4000"⟩)
        ⟨some "pk", some "sk", some "L1"⟩ ⟨⟨201, "P1", none⟩, 200, 500⟩ "2025-01-01").2) :=
  ⟨by decide, by decide, by decide, by decide,
   (list_add_nonfatal ⟨some "Jane", some "0412 345 678", some "4000"⟩
     ⟨some "pk", some "sk", some "L1"⟩ ⟨⟨201, "P1", none⟩, 200, 500⟩ "2025-01-01"
     (by decide) (by decide) (by decide) (by decide)).1 rfl⟩

/-- C10: both handler versions reject an invalid submission identically:
same 400 status, same error body, and an empty outbound trace. -/
theorem validation_stage_equivalent (d : SubscribeRequest) (env : Env)
    (kA : KlaviyoA) (kB : KlaviyoB) (now : String)
    (h : missingRequiredFields d = true ∨ postcodeMatches (d.postcode.getD "") = false) :
    subscribeA (.ok d) env kA now = subscribeB (.ok d) env kB now ∧
    (subscribeA (.ok d) env kA now).1.status = 400 ∧
    (subscribeA (.ok d) env kA now).2 = [] := by
  rcases h with h | h
  · refine ⟨?_, ?_, ?_⟩ <;>
      simp [subscribeA, subscribeARun, subscribeB, subscribeBRun, catchA, catchB, h]
  · rcases Bool.eq_false_or_eq_true (missingRequiredFields d) with hm | hm <;>
      refine ⟨?_, ?_, ?_⟩ <;>
      simp [subscribeA, subscribeARun, subscribeB, subscribeBRun, catchA, catchB, h, hm]

/-- Witness for the C10 theorem at a concrete submission with a malformed
postcode. -/
theorem validation_stage_equivalent_witness :
    postcodeMatches "ABCD" = false ∧
    subscribeA (.ok ⟨some "Jane", some "0412", some "ABCD"⟩)
        ⟨some "pk", some "sk", some "L1"⟩
        ⟨202, true, some none, 200, true, 201, some "P1", 204⟩ "2025-01-01" =
      subscribeB (.ok ⟨some "Jane", some "0412", some "ABCD"⟩)
        ⟨some "pk", some "sk", some "L1"⟩ ⟨⟨201, "P1", none⟩, 200, 204⟩ "2025-01-01" :=
  ⟨by decide,
   (validation_stage_equivalent ⟨some "Jane", some "0412", some "ABCD"⟩
     ⟨some "pk", some "sk", some "L1"⟩
     ⟨202, true, some none, 200, true, 201, some "P1", 204⟩
     ⟨⟨201, "P1", none⟩, 200, 204⟩ "2025-01-01" (Or.inr (by decide))).1⟩

/-- Counterexample to C5 as stated: the first handler version answers a
body-parse failure with 500 but places the thrown failure's own message in
the response error field, so the details do reach the caller and the
message is not the generic one of either catch block. -/
theorem catch_detail_leak_counterexample :
    subscribeA (.fail "Unexpected token u in JSON at position 0")
        ⟨some "pk", some "sk", some "L1"⟩
        ⟨202, true, some none, 200, true, 201, some "P1", 204⟩ "2025-01-01" =
      (⟨500, .err "Unexpected token u in JSON at position 0"⟩, []) ∧
    "Unexpected token u in JSON at position 0" ≠ genericCatchMsg ∧
    "Unexpected token u in JSON at position 0" ≠ "An error occurred." := by
  refine ⟨rfl, by decide, by decide⟩

/-- C5 amended: any failure thrown inside the try body of either version
is caught and answered with status 500; the second version always replies
with its fixed generic message, while the first version echoes the thrown
failure's own message in the error field of the reply. -/
theorem catch_maps_failures_to_500 (req : BodyParse) (env : Env)
    (kA : KlaviyoA) (kB : KlaviyoB) (now : String) :
    (∀ msg, (subscribeBRun req env kB now).1 = .error msg →
        (subscribeB req env kB now).1 = ⟨500, .err genericCatchMsg⟩) ∧
    (∀ msg, (subscribeARun req env kA now).1 = .error msg →
        (subscribeA req env kA now).1 = ⟨500, .err msg⟩) := by
  constructor <;> intro msg h
  · show catchB (subscribeBRun req env kB now).1 = _
    rw [h]; rfl
  · show catchA (subscribeARun req env kA now).1 = _
    rw [h]; rfl

/-- Witness for the amended C5 theorem at a concrete parse failure. -/
theorem catch_maps_failures_to_500_witness :
    (subscribeBRun (.fail "boom") ⟨some "pk", some "sk", some "L1"⟩
        ⟨⟨201, "P1", none⟩, 200, 204⟩ "2025-01-01").1 = .error "boom" ∧
    (subscribeB (.fail "boom") ⟨some "pk", some "sk", some "L1"⟩
        ⟨⟨201, "P1", none⟩, 200, 204⟩ "2025-01-01").1 = ⟨500, .err genericCatchMsg⟩ :=
  ⟨rfl,
   (catch_maps_failures_to_500 (.fail "boom") ⟨some "pk", some "sk", some "L1"⟩
     ⟨202, true, some none, 200, true, 201, some "P1", 204⟩
     ⟨⟨201, "P1", none⟩, 200, 204⟩ "2025-01-01").1 "boom" rfl⟩

/-- The try body of the second handler version issues at most one
create-profile call. -/
theorem subscribeBRun_upsert_le (req : BodyParse) (env : Env) (k : KlaviyoB)
    (now : String) : upsertAttempts (subscribeBRun req env k now).2 ≤ 1 := by
  cases req with
  | fail msg => simp [subscribeBRun, upsertAttempts]
  | ok d =>
    cases hdup : k.createResp.duplicateId <;>
      simp only [subscribeBRun, hdup] <;> split_ifs <;>
      simp [upsertAttempts, List.filter, isCreateCall]

/-- The try body of the first handler version issues at most one
create-profile call. -/
theorem subscribeARun_upsert_le (req : BodyParse) (env : Env) (k : KlaviyoA)
    (now : String) : upsertAttempts (subscribeARun req env k now).2 ≤ 1 := by
  cases req with
  | fail msg => simp [subscribeARun, upsertAttempts]
  | ok d =>
    simp only [subscribeARun]
    repeat' split
    all_goals simp [upsertAttempts, List.filter, isCreateCall]

/-- The reply of the try body of the second handler version does not
depend on the signup timestamp. -/
theorem subscribeBRun_fst_now (req : BodyParse) (env : Env) (k : KlaviyoB)
    (now now2 : String) :
    (subscribeBRun req env k now).1 = (subscribeBRun req env k now2).1 := by
  cases req with
  | fail msg => rfl
  | ok d =>
    cases hdup : k.createResp.duplicateId <;>
      simp only [subscribeBRun, hdup] <;> split_ifs <;> rfl

/-- The reply of the try body of the first handler version does not depend
on the signup timestamp. -/
theorem subscribeARun_fst_now (req : BodyParse) (env : Env) (k : KlaviyoA)
    (now now2 : String) :
    (subscribeARun req env k now).1 = (subscribeARun req env k now2).1 := by
  cases req with
  | fail msg => rfl
  | ok d =>
    simp only [subscribeARun]
    split_ifs <;> rfl

/-- C8: each request issues at most one upsert (create-profile) attempt
against the remote contact store, in either handler version; and each
invocation's reply is a function of the submission, the configuration and
the oracle of remote responses only, independent of the invocation-local
timestamp. -/
theorem single_upsert_stateless (req : BodyParse) (env : Env) (kA : KlaviyoA)
    (kB : KlaviyoB) (now now2 : String) :
    upsertAttempts (subscribeB req env kB now).2 ≤ 1 ∧
    upsertAttempts (subscribeA req env kA now).2 ≤ 1 ∧
    (subscribeB req env kB now).1 = (subscribeB req env kB now2).1 ∧
    (subscribeA req env kA now).1 = (subscribeA req env kA now2).1 :=
  ⟨subscribeBRun_upsert_le req env kB now, subscribeARun_upsert_le req env kA now,
   congrArg catchB (subscribeBRun_fst_now req env kB now now2),
   congrArg catchA (subscribeARun_fst_now req env kA now now2)⟩
